import Mathlib

/-!
Shallow embedding of the TidyBee agent core (`src/lib.rs`, `src/server.rs`,
`src/http_server.rs`, `src/configuration.rs`) and proofs about it.

External collaborators (the `my_files` store backend, the filesystem, the
`notify` watcher, `tidy_algo`) are modelled as oracles supplied through an
`Env` record: each store call is recorded in an effect trace together with
the log lines the code emits, so that the theorems can speak about which
calls are made, in which order, and with which arguments.
A Rust panic (out-of-bounds indexing, `unwrap` on a failed parse) is
modelled by an `Option.none` result.
-/

/-- Tracing levels, as in the `tracing` crate (`Level` in Rust). -/
inductive Level
  | trace
  | debug
  | info
  | warn
  | error
deriving DecidableEq

/-- `CLI_LOGGING_LEVEL` from `src/lib.rs`: the lazily-initialized
`HashMap<String, Level>` with the five lowercase keys, as a lookup
function (`HashMap::get`). -/
def CLI_LOGGING_LEVEL (s : String) : Option Level :=
  if s = "trace" then some .trace
  else if s = "debug" then some .debug
  else if s = "info" then some .info
  else if s = "warn" then some .warn
  else if s = "error" then some .error
  else none

/-- `AGENT_LOGGING_LEVEL` from `src/server.rs`: same five entries. -/
def AGENT_LOGGING_LEVEL (s : String) : Option Level :=
  if s = "trace" then some .trace
  else if s = "debug" then some .debug
  else if s = "info" then some .info
  else if s = "warn" then some .warn
  else if s = "error" then some .error
  else none

/-- `src/lib.rs` lines 35-38: the CLI logger level selected in `run`,
`INFO` when the configured string is not in the map. -/
def selected_cli_logger_level (term_level : String) : Level :=
  match CLI_LOGGING_LEVEL term_level with
  | some level => level
  | none => .info

/-- `src/server.rs` lines 87-96 (`ServerBuilder::build`): the server
logging level via `map_or_else`; the fallback also emits an error log,
recorded in the boolean component. -/
def server_logging_level (logging_level : String) : Level × Bool :=
  match AGENT_LOGGING_LEVEL logging_level with
  | some level => (level, false)
  | none => (.info, true)

/- ## Event normalizer (`handle_file_events` and helpers in `src/lib.rs`) -/

abbrev FPath := String

/-- `notify::event::ModifyKind` (only the constructor head matters to the
code: every match arm is `ModifyKind::Metadata(_)` etc.). -/
inductive ModifyKind
  | metadata
  | name
  | data
  | otherOrAny
deriving DecidableEq

/-- `notify::EventKind` constructor heads. -/
inductive EventKind
  | access
  | create
  | modifyEv (k : ModifyKind)
  | removeEv
  | otherOrAny
deriving DecidableEq

/-- `EventKind::is_remove`. -/
def EventKind.is_remove : EventKind → Bool
  | .removeEv => true
  | _ => false

/-- `EventKind::is_create`. -/
def EventKind.is_create : EventKind → Bool
  | .create => true
  | _ => false

/-- `EventKind::is_modify`. -/
def EventKind.is_modify : EventKind → Bool
  | .modifyEv _ => true
  | _ => false

/-- `notify::Event`: a kind plus the list of paths it carries. -/
structure Event where
  kind : EventKind
  paths : List FPath
deriving DecidableEq

/-- A call into the `my_files` store, with the arguments the code passes. -/
inductive StoreCall
  | remove_file_from_db (path : FPath)
  | add_file_to_db (path : FPath)
  | update_file_last_modified (path : FPath) (last_modified : Nat)
  | update_file_path (old_path new_path : FPath)
  | update_file_hash (path : FPath) (hash : String)
  | update_grade (path : FPath)
deriving DecidableEq

/-- One observable effect of the pipeline code: a store call or a log line. -/
inductive Effect
  | store (c : StoreCall)
  | logInfo (msg : String)
  | logError (msg : String)
deriving DecidableEq

/-- Oracles for everything outside the translated code: the filesystem
(`fs::metadata`, `file_info::*`) and the store backend results. -/
structure Env where
  /-- `fs::metadata(path).is_ok()` -/
  fs_metadata_ok : FPath → Bool
  /-- whether `file_info::create_file_info(path)` returns `Some` -/
  create_file_info_ok : FPath → Bool
  /-- `file_info::get_last_access(path)`, converted to a timestamp -/
  get_last_access : FPath → Except String Nat
  /-- `file_info::get_file_signature(path).to_string()` -/
  get_file_signature : FPath → String
  /-- backend result of `my_files.remove_file_from_db(path)` -/
  remove_result : FPath → Except String Unit
  /-- backend result of `my_files.add_file_to_db(file)` -/
  add_result : FPath → Except String Unit

/-- `safe_remove_file_from_db` (`src/lib.rs` lines 159-173): removes only
when `fs::metadata` errors (the path no longer exists); a backend error is
logged; a path that still exists is logged and skipped. -/
def safe_remove_file_from_db (env : Env) (path : FPath) : List Effect :=
  if env.fs_metadata_ok path = false then
    match env.remove_result path with
    | .ok _ => [.store (.remove_file_from_db path)]
    | .error e => [.store (.remove_file_from_db path), .logError e]
  else
    [.logError ("Trying to remove from the database a file that exists: " ++ path)]

/-- `safe_add_file_to_db` (`src/lib.rs` lines 175-191): adds only when
`fs::metadata` succeeds and `create_file_info` yields `Some`; a backend
error is logged; a missing path is logged and skipped. -/
def safe_add_file_to_db (env : Env) (path : FPath) : List Effect :=
  if env.fs_metadata_ok path then
    if env.create_file_info_ok path then
      match env.add_result path with
      | .ok _ => [.store (.add_file_to_db path)]
      | .error e => [.store (.add_file_to_db path), .logError e]
    else []
  else
    [.logError ("Trying to add in the database a file that does not exists: " ++ path)]

/-- `handle_file_events` (`src/lib.rs` lines 208-252). Every `event.paths[i]`
of the Rust code is a panicking index, modelled by `List.get?` with `none`
as the panic outcome; otherwise the function returns the effect trace. -/
def handle_file_events (env : Env) (event : Event) : Option (List Effect) :=
  if event.kind.is_remove then
    match event.paths.get? 0 with
    | none => none
    | some p =>
      some (.logInfo ("File removed: " ++ p) :: safe_remove_file_from_db env p)
  else if event.kind.is_create then
    match event.paths.get? 0 with
    | none => none
    | some p =>
      some (.logInfo ("File created: " ++ p) :: safe_add_file_to_db env p)
  else if event.kind.is_modify then
    match event.kind with
    | .modifyEv .metadata =>
      match event.paths.get? 0 with
      | none => none
      | some p =>
        some (.logInfo ("Metadata modification: " ++ p) ::
          match env.get_last_access p with
          | .ok last_modified =>
            [.store (.update_file_last_modified p last_modified),
             .store (.update_grade p)]
          | .error e => [.logError e])
    | .modifyEv .name =>
      match event.paths.get? 0, event.paths.get? 1 with
      | some p0, some p1 =>
        some [.logInfo ("File moved: " ++ p0 ++ ": " ++ p1),
          .store (.update_file_path p0 p1),
          .store (.update_grade p0)]
      | _, _ => none
    | .modifyEv .data =>
      match event.paths.get? 0 with
      | none => none
      | some p =>
        some [.logInfo ("File content modified: " ++ p),
          .store (.update_file_hash p (env.get_file_signature p)),
          .store (.update_grade p)]
    | _ => some []
  else some []

/-- An environment in which every oracle succeeds, for concrete runs. -/
def envAllOk : Env where
  fs_metadata_ok := fun _ => true
  create_file_info_ok := fun _ => true
  get_last_access := fun _ => .ok 0
  get_file_signature := fun _ => "sig"
  remove_result := fun _ => .ok ()
  add_result := fun _ => .ok ()

/-- An environment in which no path exists on the filesystem. -/
def envNoFs : Env where
  fs_metadata_ok := fun _ => false
  create_file_info_ok := fun _ => false
  get_last_access := fun _ => .error "io"
  get_file_signature := fun _ => "sig"
  remove_result := fun _ => .ok ()
  add_result := fun _ => .ok ()

/- ## Hub Client retry loop (`src/lib.rs` lines 99-114) and configuration -/

/-- `HubConfig` from `src/configuration.rs` lines 35-43. -/
structure HubConfig where
  host : String
  port : String
  protocol : String
  auth_path : String
  disconnect_path : String
  connection_attempt_limit : Nat
deriving DecidableEq

/-- The `hub_config` of `Configuration::default()`
(`src/configuration.rs` lines 85-92). -/
def hub_config_default : HubConfig where
  host := "localhost"
  port := "7001"
  protocol := "http"
  auth_path := "/gateway/auth/AOTH"
  disconnect_path := "/gateway/auth/AOTH/{agent_id}/disconnect"
  connection_attempt_limit := 30

/-- Observable outcome of running the hub retry loop for a bounded number
of iterations: the sleep durations in order, the number of `connect`
attempts made, whether the loop ended via `break` (a successful connect),
and the number of `error!` log lines. -/
structure RetryResult where
  waits : List Nat
  attempts : Nat
  connected : Bool
  error_logs : Nat
deriving DecidableEq

/-- One unrolling of the `loop` in `src/lib.rs` lines 101-113 with `fuel`
iterations allowed: sleep `timeout`, call `connect` (its success for the
n-th attempt given by the oracle `connectOk`), on failure log at error
level and double `timeout`.  The code itself has no exit besides `break`
on success, so `fuel` is only the observation window. -/
def hub_connect_loop_go (connectOk : Nat → Bool) :
    Nat → Nat → Nat → RetryResult
  | 0, _, _ => ⟨[], 0, false, 0⟩
  | fuel + 1, attempt, timeout =>
    if connectOk attempt then
      ⟨[timeout], 1, true, 0⟩
    else
      ⟨timeout ::
         (hub_connect_loop_go connectOk fuel (attempt + 1) (timeout * 2)).waits,
       (hub_connect_loop_go connectOk fuel (attempt + 1) (timeout * 2)).attempts + 1,
       (hub_connect_loop_go connectOk fuel (attempt + 1) (timeout * 2)).connected,
       (hub_connect_loop_go connectOk fuel (attempt + 1) (timeout * 2)).error_logs + 1⟩

/-- The spawned hub task of `run` (`src/lib.rs` lines 99-114): the loop
starts with `timeout = 5` and attempt index 0.  Note that the surrounding
code never consults `HubConfig.connection_attempt_limit`. -/
def hub_connect_loop (connectOk : Nat → Bool) (fuel : Nat) : RetryResult :=
  hub_connect_loop_go connectOk fuel 0 5

/-- A connect oracle that fails the first two attempts and succeeds on
the third (attempt indices 0 and 1 fail, index 2 succeeds). -/
def fails_first_two (attempt : Nat) : Bool := decide (2 ≤ attempt)

/- ## `run` startup sequence (`src/lib.rs` lines 31-98) -/

/-- One observable step of `run` before the event loop. -/
inductive RunStep
  | init_logger (level : Level)
  | my_files_created
  | init_db
  | tidy_algo_created
  | rules_loaded (n : Nat)
  | rules_load_failed (e : String)
  | list_directories
  | update_all_grades
  | server_built
  | hub_client_created
  | server_spawned
  | hub_loop_spawned
  | watcher_spawned
deriving DecidableEq

/-- The startup sequence of `run` (`src/lib.rs` lines 31-123), as the
ordered list of steps it performs, parameterized by the configured
terminal log level and by the result of
`tidy_algo.load_rules_from_file` (a `tidy_algo` function outside this
crate's translated sources; per the spec its `Ok` payload is the count of
successfully loaded rules).  Both match arms of lines 70-75 fall through
to `list_directories` and `update_all_grades`. -/
def run_startup (term_level : String) (load_result : Except String Nat) :
    List RunStep :=
  [.init_logger (selected_cli_logger_level term_level),
   .my_files_created, .init_db, .tidy_algo_created] ++
  (match load_result with
   | .ok loaded_rules_amt => [.rules_loaded loaded_rules_amt]
   | .error err => [.rules_load_failed err]) ++
  [.list_directories, .update_all_grades,
   .server_built, .hub_client_created,
   .server_spawned, .hub_loop_spawned, .watcher_spawned]

/- ## HTTP `get_files` route (`src/http_server.rs` lines 33-54) -/

/-- The fields of `FileInfo` that the `get_files` route reads. -/
structure FileInfo where
  path : String
  size : Nat
  last_modified : Nat
deriving DecidableEq

/-- Rust `str::to_lowercase`, modelled character-wise (adequate for the
ASCII sort keys this code compares against). -/
def to_lowercase (s : String) : String :=
  String.mk (s.data.map Char.toLower)

/-- The comparator closure passed to `files_vec.sort_by` in
`src/http_server.rs` lines 44-51, turned into the Boolean "less or
equal" relation of the sort: `le a b` holds exactly when the Rust
comparator applied to `(a, b)` does not return `Greater`.
`b.size.cmp(&a.size)` orders by size descending; the `_` arm logs an
error and also orders by size descending. -/
def get_files_le (sort_by : String) (a b : FileInfo) : Bool :=
  match to_lowercase sort_by with
  | "size" => b.size ≤ a.size
  | "last_update" => b.last_modified ≤ a.last_modified
  | _ => b.size ≤ a.size

/-- The sort key the claim speaks about: `size` for the (lowercased)
`size` parameter, `last_modified` for `last_update`. -/
def sort_key (sort_by : String) (f : FileInfo) : Nat :=
  if to_lowercase sort_by = "size" then f.size else f.last_modified

/-- `get_files` (`src/http_server.rs` lines 33-54): fetch every record
from the store, sort (stably) with the comparator selected by
`sort_by.to_lowercase()`, and keep the first `number_of_files`.  The
store only supplies `files_vec` (`get_all_files_from_db`); sorting and
truncation happen here in the API layer. -/
def get_files (files_vec : List FileInfo) (number_of_files : Nat)
    (sort_by : String) : List FileInfo :=
  ((files_vec.mergeSort (get_files_le sort_by)).take number_of_files)

/- ## `Server::start` (`src/server.rs` lines 118-150) -/

/-- Split a character list on a separator character (the groups between
separators, in order; like Rust `str::split`). -/
def split_on_char (sep : Char) : List Char → List (List Char)
  | [] => [[]]
  | c :: rest =>
    if c = sep then
      [] :: split_on_char sep rest
    else
      match split_on_char sep rest with
      | [] => [[c]]
      | g :: gs => (c :: g) :: gs

/-- Nonempty all-decimal-digit character group. -/
def all_digits (l : List Char) : Bool :=
  decide (l ≠ []) && l.all (fun c => c.isDigit)

/-- Numeric value of a decimal digit group. -/
def digits_to_nat (l : List Char) : Nat :=
  l.foldl (fun acc c => acc * 10 + (c.toNat - 48)) 0

/-- Model of Rust `std` socket-address parsing (`self.address.parse()`),
restricted to IPv4 `a.b.c.d:port` literals, which covers every address
this repository configures (`"0.0.0.0:8111"`, the empty string of a
derived `Default`, and arbitrary invalid strings): the string must be
`ip:port` with `ip` a dotted quad of numbers below 256 and `port` a
number below 65536. -/
def parse_socket_addr (s : String) : Bool :=
  match split_on_char ':' s.data with
  | [ip, port] =>
    (match split_on_char '.' ip with
     | [a, b, c, d] =>
       [a, b, c, d].all (fun oct => all_digits oct && digits_to_nat oct < 256)
     | _ => false)
    && (all_digits port && digits_to_nat port < 65536)
  | _ => false

/-- `Server` (`src/server.rs` lines 31-35); the `Router` field plays no
role in address selection and is omitted.  `#[derive(Default)]` gives
`String::default()`, the empty string, for `address`. -/
structure Server where
  address : String
deriving DecidableEq

/-- `Server::default()` as produced by the derived `Default`. -/
def Server.default : Server := ⟨""⟩

/-- How far `Server::start` gets (`src/server.rs` lines 118-150):
`none` models the `unwrap` panic on line 130 (parsing the fallback
address); `bind_failed` models the early `return` of lines 135-138;
`serving` means the listener bound and `axum::serve` was reached. -/
inductive StartOutcome
  | bind_failed (addr : String)
  | serving (addr : String)
deriving DecidableEq

/-- `Server::start` address selection and bind (`src/server.rs` lines
118-139): parse `self.address`; on failure fall back to
`Server::default().address`, whose parse result is `unwrap`ped (panic
when it fails too, modelled as `none`); then bind, returning early on
bind failure. -/
def Server.start (self : Server) (bindOk : String → Bool) :
    Option StartOutcome :=
  match (if parse_socket_addr self.address then some self.address else none) with
  | some addr =>
    some (if bindOk addr then .serving addr else .bind_failed addr)
  | none =>
    match (if parse_socket_addr Server.default.address
           then some Server.default.address else none) with
    | some addr =>
      some (if bindOk addr then .serving addr else .bind_failed addr)
    | none => none

/- ## Helper lemmas -/

/-- Under an always-failing connect oracle, every allowed iteration of the
hub loop performs one attempt and one error log, and the loop never
reaches `break`. -/
theorem hub_connect_loop_go_always_fails (fuel attempt timeout : Nat) :
    (hub_connect_loop_go (fun _ => false) fuel attempt timeout).attempts = fuel ∧
    (hub_connect_loop_go (fun _ => false) fuel attempt timeout).connected = false ∧
    (hub_connect_loop_go (fun _ => false) fuel attempt timeout).error_logs = fuel := by
  induction fuel generalizing attempt timeout with
  | zero => exact ⟨rfl, rfl, rfl⟩
  | succ n ih =>
    have h := ih (attempt + 1) (timeout * 2)
    simp [hub_connect_loop_go, h.1, h.2.1, h.2.2]

/-- The sleep durations of the hub loop double from the starting timeout:
the i-th recorded wait is `timeout * 2 ^ i`. -/
theorem hub_connect_loop_go_waits (connectOk : Nat → Bool)
    (fuel attempt timeout i : Nat)
    (h : i < (hub_connect_loop_go connectOk fuel attempt timeout).waits.length) :
    (hub_connect_loop_go connectOk fuel attempt timeout).waits.get? i =
      some (timeout * 2 ^ i) := by
  induction fuel generalizing attempt timeout i with
  | zero => simp [hub_connect_loop_go] at h
  | succ n ih =>
    by_cases hc : connectOk attempt = true
    · simp only [hub_connect_loop_go, hc, if_true] at h ⊢
      have hi : i = 0 := by
        simp only [List.length_singleton] at h
        omega
      subst hi
      simp
    · simp only [hub_connect_loop_go, hc, Bool.false_eq_true, if_false] at h ⊢
      match i with
      | 0 => simp
      | j + 1 =>
        simp only [List.length_cons, Nat.add_lt_add_iff_right] at h
        simp only [List.get?_cons_succ]
        rw [ih (attempt + 1) (timeout * 2) j h]
        congr 1
        ring

/-- `get_files_le` is the descending order on the selected sort key when
the (lowercased) sort key is recognized. -/
theorem get_files_le_iff_sort_key (sort_by : String)
    (h : to_lowercase sort_by = "size" ∨ to_lowercase sort_by = "last_update")
    (a b : FileInfo) :
    get_files_le sort_by a b = true ↔
      sort_key sort_by b ≤ sort_key sort_by a := by
  rcases h with h | h <;>
    simp [get_files_le, sort_key, h, decide_eq_true_eq]

/- ## Claim theorems -/

/-- Claim C1: the claim says the retry loop stops after exactly
`connection_attempt_limit` attempts when connect always fails.  The code
(`src/lib.rs` lines 99-114) never consults the limit: for every
observation window of `fuel` iterations under an always-failing connect,
the loop performs `fuel` attempts with `fuel` error-level logs and has
not stopped — so with the default limit of 30 it performs attempt 31 and
beyond. -/
theorem hub_retry_loop_unbounded (fuel : Nat) :
    (hub_connect_loop (fun _ => false) fuel).attempts = fuel ∧
    (hub_connect_loop (fun _ => false) fuel).connected = false ∧
    (hub_connect_loop (fun _ => false) fuel).error_logs = fuel ∧
    hub_config_default.connection_attempt_limit = 30 :=
  ⟨(hub_connect_loop_go_always_fails fuel 0 5).1,
   (hub_connect_loop_go_always_fails fuel 0 5).2.1,
   (hub_connect_loop_go_always_fails fuel 0 5).2.2, rfl⟩

/-- Claim C2: after a rename event `[a, b]` the code moves the record to
`b` via `update_file_path(a, b)`, but the following rescoring call is
`update_grade(event.paths[0])` — keyed on the OLD path `a`, not on `b`
as the claim states. -/
theorem renamed_update_grade_keyed_on_old_path (env : Env) (a b : FPath) :
    handle_file_events env ⟨.modifyEv .name, [a, b]⟩ =
      some [.logInfo ("File moved: " ++ a ++ ": " ++ b),
        .store (.update_file_path a b),
        .store (.update_grade a)] := rfl

/-- Claim C3 counterexample: with the code's initial timeout of 5 and a
backend failing the first two attempts, the waits are `[5, 10, 20]` — the
waits before the 2nd and 3rd attempts are 10 and 20, not `t0 = 5` and
`2·t0 = 10` as the claim states (the code also sleeps before the first
attempt and doubles from there). -/
theorem hub_backoff_claim_counterexample :
    (hub_connect_loop fails_first_two 10).connected = true ∧
    (hub_connect_loop fails_first_two 10).attempts = 3 ∧
    (hub_connect_loop fails_first_two 10).waits = [5, 10, 20] ∧
    (hub_connect_loop fails_first_two 10).waits.get? 1 ≠ some 5 ∧
    (hub_connect_loop fails_first_two 10).waits.get? 2 ≠ some 10 := by
  decide

/-- Claim C3 amended: the retry schedule starts from the fixed initial
timeout 5 (not configurable), the loop sleeps before every attempt
including the first, and the i-th wait is `5 * 2 ^ i`; a backend failing
the first two attempts yields waits `[5, 10, 20]`, 3 attempts, and a loop
that ends successfully (connected). -/
theorem hub_backoff_amended :
    (∀ (connectOk : Nat → Bool) (fuel i : Nat),
      i < (hub_connect_loop connectOk fuel).waits.length →
      (hub_connect_loop connectOk fuel).waits.get? i = some (5 * 2 ^ i)) ∧
    hub_connect_loop fails_first_two 10 = ⟨[5, 10, 20], 3, true, 2⟩ := by
  constructor
  · intro connectOk fuel i h
    exact hub_connect_loop_go_waits connectOk fuel 0 5 i h
  · decide

/-- Witness for the amended C3 claim at a concrete index. -/
theorem hub_backoff_amended_witness :
    (hub_connect_loop fails_first_two 10).waits.get? 2 = some (5 * 2 ^ 2) :=
  hub_backoff_amended.1 fails_first_two 10 2 (by decide)

/-- Claim C4 counterexample: a `Created` event is handled by
`safe_add_file_to_db` alone — its trace holds no `update_grade` call, so
not every non-removal action is followed by rescoring. -/
theorem created_event_not_rescored :
    handle_file_events envAllOk ⟨.create, ["a"]⟩ =
      some [.logInfo "File created: a", .store (.add_file_to_db "a")] ∧
    Effect.store (.update_grade "a") ∉
      (handle_file_events envAllOk ⟨.create, ["a"]⟩).getD [] := by
  decide

/-- Claim C4 amended: `Renamed` and `ContentChanged` store mutations are
immediately followed by `update_grade` on `event.paths[0]`;
`MetadataChanged` is followed by `update_grade` exactly when reading the
last access time succeeds; `Created` and `Removed` events trigger no
rescoring at all. -/
theorem rescoring_follows_modify_events (env : Env) (p q : FPath) :
    (handle_file_events env ⟨.modifyEv .name, [p, q]⟩).getD [] =
      [.logInfo ("File moved: " ++ p ++ ": " ++ q),
       .store (.update_file_path p q), .store (.update_grade p)] ∧
    (handle_file_events env ⟨.modifyEv .data, [p]⟩).getD [] =
      [.logInfo ("File content modified: " ++ p),
       .store (.update_file_hash p (env.get_file_signature p)),
       .store (.update_grade p)] ∧
    (Effect.store (.update_grade p) ∈
        (handle_file_events env ⟨.modifyEv .metadata, [p]⟩).getD [] ↔
      ∃ t, env.get_last_access p = .ok t) ∧
    (∀ r, Effect.store (.update_grade r) ∉
      (handle_file_events env ⟨.create, [p]⟩).getD []) ∧
    (∀ r, Effect.store (.update_grade r) ∉
      (handle_file_events env ⟨.removeEv, [p]⟩).getD []) := by
  refine ⟨rfl, rfl, ?_, ?_, ?_⟩
  · show Effect.store (.update_grade p) ∈
      (Effect.logInfo ("Metadata modification: " ++ p) ::
        match env.get_last_access p with
        | .ok last_modified =>
          [.store (.update_file_last_modified p last_modified),
           .store (.update_grade p)]
        | .error e => [.logError e]) ↔ _
    cases h : env.get_last_access p with
    | ok t => simp [h]
    | error e => simp [h]
  · intro r
    show Effect.store (.update_grade r) ∉
      Effect.logInfo ("File created: " ++ p) :: safe_add_file_to_db env p
    unfold safe_add_file_to_db
    cases hfs : env.fs_metadata_ok p with
    | false => simp
    | true =>
      cases hci : env.create_file_info_ok p with
      | false => simp
      | true =>
        cases har : env.add_result p with
        | ok u => simp [har]
        | error e => simp [har]
  · intro r
    show Effect.store (.update_grade r) ∉
      Effect.logInfo ("File removed: " ++ p) :: safe_remove_file_from_db env p
    unfold safe_remove_file_from_db
    cases hfs : env.fs_metadata_ok p with
    | true => simp
    | false =>
      cases hrr : env.remove_result p with
      | ok u => simp [hrr]
      | error e => simp [hrr]

/-- Claim C5: the handler is NOT total in the number of paths — the code
indexes `event.paths[0]` / `event.paths[1]` unconditionally, so a rename
notification carrying one path, or a removal carrying none, panics
(modelled as `none`), killing the consumer loop. -/
theorem handle_file_events_panics_on_missing_paths (env : Env) :
    handle_file_events env ⟨.modifyEv .name, ["a"]⟩ = none ∧
    handle_file_events env ⟨.removeEv, []⟩ = none :=
  ⟨rfl, rfl⟩

/-- Claim C6: `safe_remove_file_from_db` leaves the store untouched (one
error log, no store call) for a path that still exists on the
filesystem, and `safe_add_file_to_db` likewise for a path that does not
exist. -/
theorem safe_ops_respect_fs_existence (env : Env) (p : FPath) :
    (env.fs_metadata_ok p = true →
      safe_remove_file_from_db env p =
        [.logError ("Trying to remove from the database a file that exists: " ++ p)]) ∧
    (env.fs_metadata_ok p = false →
      safe_add_file_to_db env p =
        [.logError ("Trying to add in the database a file that does not exists: " ++ p)]) := by
  constructor
  · intro h
    simp [safe_remove_file_from_db, h]
  · intro h
    simp [safe_add_file_to_db, h]

/-- Witness for C6 at concrete environments and a concrete path. -/
theorem safe_ops_respect_fs_existence_witness :
    safe_remove_file_from_db envAllOk "a" =
      [.logError "Trying to remove from the database a file that exists: a"] ∧
    safe_add_file_to_db envNoFs "a" =
      [.logError "Trying to add in the database a file that does not exists: a"] :=
  ⟨(safe_ops_respect_fs_existence envAllOk "a").1 rfl,
   (safe_ops_respect_fs_existence envNoFs "a").2 rfl⟩

/-- Claim C7: for a recognized sort key (case-insensitively `size` or
`last_update`), `get_files` returns a prefix of length
`min n (number of records)` of some reordering of the store's full
record list that is sorted descending by that key — selection and
ordering computed here, the store only supplying the full list. -/
theorem get_files_sorts_and_truncates (files_vec : List FileInfo)
    (number_of_files : Nat) (sort_by : String)
    (h : to_lowercase sort_by = "size" ∨ to_lowercase sort_by = "last_update") :
    ∃ sorted_all : List FileInfo,
      files_vec.Perm sorted_all ∧
      sorted_all.Sorted
        (fun a b => sort_key sort_by b ≤ sort_key sort_by a) ∧
      get_files files_vec number_of_files sort_by =
        sorted_all.take number_of_files ∧
      (get_files files_vec number_of_files sort_by).length =
        min number_of_files files_vec.length := by
  refine ⟨files_vec.mergeSort (get_files_le sort_by), ?_, ?_, rfl, ?_⟩
  · exact (List.mergeSort_perm files_vec (get_files_le sort_by)).symm
  · have htrans : ∀ a b c : FileInfo,
        get_files_le sort_by a b = true → get_files_le sort_by b c = true →
        get_files_le sort_by a c = true := by
      intro a b c hab hbc
      rw [get_files_le_iff_sort_key sort_by h] at hab hbc ⊢
      omega
    have htotal : ∀ a b : FileInfo,
        (get_files_le sort_by a b || get_files_le sort_by b a) = true := by
      intro a b
      rcases Nat.le_total (sort_key sort_by a) (sort_key sort_by b) with hle | hle
      · rw [Bool.or_eq_true]
        right
        rw [get_files_le_iff_sort_key sort_by h]
        exact hle
      · rw [Bool.or_eq_true]
        left
        rw [get_files_le_iff_sort_key sort_by h]
        exact hle
    have hs := List.sorted_mergeSort htrans htotal files_vec
    exact List.Pairwise.imp
      (fun hab => (get_files_le_iff_sort_key sort_by h _ _).mp hab) hs
  · rw [get_files, List.length_take, List.length_mergeSort]

/-- Witness for C7 at a concrete record list and an uppercase sort key. -/
theorem get_files_sorts_and_truncates_witness :
    (to_lowercase "SIZE" = "size" ∨ to_lowercase "SIZE" = "last_update") ∧
    ∃ sorted_all : List FileInfo,
      List.Perm [⟨"a", 1, 9⟩, ⟨"b", 3, 4⟩] sorted_all ∧
      sorted_all.Sorted (fun a b => sort_key "SIZE" b ≤ sort_key "SIZE" a) ∧
      get_files [⟨"a", 1, 9⟩, ⟨"b", 3, 4⟩] 1 "SIZE" = sorted_all.take 1 ∧
      (get_files [⟨"a", 1, 9⟩, ⟨"b", 3, 4⟩] 1 "SIZE").length =
        min 1 ([⟨"a", 1, 9⟩, ⟨"b", 3, 4⟩] : List FileInfo).length :=
  ⟨by decide,
   get_files_sorts_and_truncates [⟨"a", 1, 9⟩, ⟨"b", 3, 4⟩] 1 "SIZE" (by decide)⟩

/-- Claim C8: rule-set loading is not fatal to startup — in `run`, both
the success arm (which reports the `Ok` payload, the count of loaded
rules) and the failure arm (which logs the error) are followed by the
directory listing and the grading of all files. -/
theorem rule_load_failure_not_fatal (term_level : String) (n : Nat) (e : String) :
    (∃ pre post, run_startup term_level (.error e) =
        pre ++ RunStep.rules_load_failed e :: post ∧
        RunStep.list_directories ∈ post ∧ RunStep.update_all_grades ∈ post) ∧
    (∃ pre post, run_startup term_level (.ok n) =
        pre ++ RunStep.rules_loaded n :: post ∧
        RunStep.list_directories ∈ post ∧ RunStep.update_all_grades ∈ post) := by
  constructor
  · refine ⟨[.init_logger (selected_cli_logger_level term_level),
      .my_files_created, .init_db, .tidy_algo_created],
      [.list_directories, .update_all_grades, .server_built,
       .hub_client_created, .server_spawned, .hub_loop_spawned,
       .watcher_spawned], rfl, ?_, ?_⟩ <;> decide
  · refine ⟨[.init_logger (selected_cli_logger_level term_level),
      .my_files_created, .init_db, .tidy_algo_created],
      [.list_directories, .update_all_grades, .server_built,
       .hub_client_created, .server_spawned, .hub_loop_spawned,
       .watcher_spawned], rfl, ?_, ?_⟩ <;> decide

/-- Claim C9: `Server::default()` has the empty string as address, the
empty string does not parse as a socket address, and for every
configured address that fails to parse `Server::start` reaches the
`unwrap` on the failed fallback parse and panics (modelled `none`). -/
theorem unparsable_address_panics :
    Server.default.address = "" ∧
    parse_socket_addr "" = false ∧
    ∀ (s : String) (bindOk : String → Bool),
      parse_socket_addr s = false → Server.start ⟨s⟩ bindOk = none := by
  have hempty : parse_socket_addr "" = false := by decide
  refine ⟨rfl, hempty, ?_⟩
  intro s bindOk h
  simp [Server.start, h, Server.default, hempty]

/-- Witness for C9 at a concrete unparsable address. -/
theorem unparsable_address_panics_witness :
    Server.start ⟨"not an address"⟩ (fun _ => true) = none :=
  unparsable_address_panics.2.2 "not an address" (fun _ => true) (by decide)

/-- Claim C10: every logging-level string other than the five lowercase
names maps to `INFO` both for the CLI logger in `run` and for the HTTP
server trace layer, the latter additionally logging an error (the `true`
flag). -/
theorem invalid_log_level_defaults_to_info (s : String)
    (h : s ≠ "trace" ∧ s ≠ "debug" ∧ s ≠ "info" ∧ s ≠ "warn" ∧ s ≠ "error") :
    selected_cli_logger_level s = .info ∧
    server_logging_level s = (.info, true) := by
  obtain ⟨h1, h2, h3, h4, h5⟩ := h
  constructor <;>
    simp [selected_cli_logger_level, server_logging_level,
      CLI_LOGGING_LEVEL, AGENT_LOGGING_LEVEL, h1, h2, h3, h4, h5]

/-- Witness for C10 at the concrete invalid level string `WARN`. -/
theorem invalid_log_level_defaults_to_info_witness :
    selected_cli_logger_level "WARN" = .info ∧
    server_logging_level "WARN" = (.info, true) :=
  invalid_log_level_defaults_to_info "WARN" (by decide)
